import Mathlib

/-
Shallow embedding of backend/voice/audio_utils.py: the AudioBuffer
(FixedWindowBuffer), VADBuffer (ActivityBuffer) and AudioValidator classes.

Modelling conventions:
* a byte is a natural number (0..255 for genuine bytes), an audio chunk a
  list of bytes;
* wall-clock time (time.perf_counter) is an explicit rational parameter
  threaded through the mutating operations that read the clock;
* calls into the external pydub library (AudioSegment.from_file with a
  declared format, AudioSegment.from_file with auto-detection, and
  audio.export to WAV) are modelled by an oracle of partial functions:
  `none` is the call raising an exception, `some` its successful result;
* Python floats are modelled by rationals; the single square root in the
  RMS silence check is eliminated by comparing squares, which is exact for
  the nonnegative quantities involved.
-/

abbrev AByte := ℕ

abbrev Chunk := List AByte

/-- One signed 16-bit sample from two little-endian bytes (each in 0..255),
as np.frombuffer(..., dtype=np.int16) reads them. -/
def int16OfBytes (b0 b1 : AByte) : ℤ :=
  let v : ℤ := (b0 : ℤ) + 256 * (b1 : ℤ)
  if 32768 ≤ v then v - 65536 else v

/-- np.frombuffer(audio_bytes, dtype=np.int16): `none` when the byte count
is odd (numpy raises ValueError, caught by the bare except in _is_silence),
otherwise the list of signed 16-bit samples. -/
def framesOfBytes : Chunk → Option (List ℤ)
  | [] => some []
  | [_] => none
  | b0 :: b1 :: rest => (framesOfBytes rest).map (fun l => int16OfBytes b0 b1 :: l)

/-- Mean of the squared samples after normalising by 32768, i.e. the square
of the RMS value computed in _is_silence. -/
def meanSquare (samples : List ℤ) : ℚ :=
  (samples.map (fun s => ((s : ℚ) / 32768) ^ 2)).sum / (samples.length : ℚ)

/-- Outcomes of the pydub calls made while assembling buffered chunks:
decoding the concatenation as webm, decoding it with format auto-detection,
and exporting a decoded segment as WAV bytes. `none` models the call
raising. `α` is the type of decoded AudioSegment values. -/
structure PydubOracle (α : Type) where
  fromFileWebm : Chunk → Option α
  fromFileAuto : Chunk → Option α
  exportWav : α → Option Chunk

/-- The shared chunk-assembly logic of AudioBuffer.get_audio and
VADBuffer.get_audio_and_reset, for a nonempty chunk list: concatenate the
raw bytes, try to decode as webm, on failure retry with auto-detection, and
export the decoded audio as WAV; if auto-detection also fails, or the
export fails, the outer except returns the raw concatenated bytes. -/
def assembleWav {α : Type} (ora : PydubOracle α) (chunks : List Chunk) : Chunk :=
  let combined_bytes := chunks.flatten
  match (match ora.fromFileWebm combined_bytes with
         | some a => some a
         | none => ora.fromFileAuto combined_bytes) with
  | some a =>
      match ora.exportWav a with
      | some wav_bytes => wav_bytes
      | none => combined_bytes
  | none => combined_bytes

/-- State of the AudioBuffer class (the spec's FixedWindowBuffer):
configuration plus buffered chunks and the byte-rate-estimated duration. -/
structure AudioBuffer where
  chunk_duration : ℚ
  max_duration : ℚ
  chunks : List Chunk
  total_duration : ℚ

/-- AudioBuffer.__init__(chunk_duration, max_duration). -/
def AudioBuffer.init (chunk_duration : ℚ) (max_duration : ℚ) : AudioBuffer :=
  ⟨chunk_duration, max_duration, [], 0⟩

/-- AudioBuffer.add: append the chunk and add the byte-count-estimated
duration len(audio_data)/3200.0. -/
def AudioBuffer.add (s : AudioBuffer) (audio_data : Chunk) : AudioBuffer :=
  { s with
    chunks := s.chunks ++ [audio_data]
    total_duration := s.total_duration + (audio_data.length : ℚ) / 3200 }

/-- AudioBuffer.is_ready. -/
def AudioBuffer.is_ready (s : AudioBuffer) : Bool :=
  decide (s.chunk_duration ≤ s.total_duration)

/-- AudioBuffer.is_full. -/
def AudioBuffer.is_full (s : AudioBuffer) : Bool :=
  decide (s.max_duration ≤ s.total_duration)

/-- AudioBuffer.get_audio: returns b'' on an empty buffer, otherwise the
assembled audio. The method reads self.chunks and never assigns any
attribute, so the state component of the result is the input state. -/
def AudioBuffer.get_audio {α : Type} (s : AudioBuffer) (ora : PydubOracle α) :
    Chunk × AudioBuffer :=
  if s.chunks.isEmpty then ([], s)
  else (assembleWav ora s.chunks, s)

/-- AudioBuffer.clear. -/
def AudioBuffer.clear (s : AudioBuffer) : AudioBuffer :=
  { s with chunks := [], total_duration := 0 }

/-- AudioBuffer.get_duration. -/
def AudioBuffer.get_duration (s : AudioBuffer) : ℚ := s.total_duration

/-- AudioBuffer.get_chunk_count. -/
def AudioBuffer.get_chunk_count (s : AudioBuffer) : ℕ := s.chunks.length

/-- State of the VADBuffer class (the spec's ActivityBuffer): configuration
plus buffered chunks, cumulative byte count, the optional start time of the
current silence run, and the has_speech flag. -/
structure VADBuffer where
  silence_threshold_ms : ℚ
  max_duration_s : ℚ
  rms_silence_threshold : ℚ
  sample_rate : ℕ
  chunks : List Chunk
  total_bytes : ℕ
  silence_start_time : Option ℚ
  has_speech : Bool

/-- VADBuffer.__init__(silence_threshold_ms, max_duration_s,
rms_silence_threshold, sample_rate). -/
def VADBuffer.init (silence_threshold_ms : ℚ) (max_duration_s : ℚ)
    (rms_silence_threshold : ℚ) (sample_rate : ℕ) : VADBuffer :=
  ⟨silence_threshold_ms, max_duration_s, rms_silence_threshold, sample_rate,
    [], 0, none, false⟩

/-- VADBuffer._is_silence: parse the bytes as int16 samples (an exception —
e.g. an odd byte count — yields False, "assume not silence"); an empty
sample array yields True; otherwise compare the RMS of the normalised
samples against rms_silence_threshold. The source computes
sqrt(mean(square)) < threshold; both sides being what they are, this is
equivalent to the square-free test 0 < threshold ∧ mean(square) < threshold²
used here. -/
def rmsIsSilence (thr : ℚ) (audio_bytes : Chunk) : Bool :=
  match framesOfBytes audio_bytes with
  | none => false
  | some [] => true
  | some samples => decide (0 < thr ∧ meanSquare samples < thr ^ 2)

/-- The _is_silence method: the test above at self.rms_silence_threshold. -/
def VADBuffer.is_silence (s : VADBuffer) (audio_bytes : Chunk) : Bool :=
  rmsIsSilence s.rms_silence_threshold audio_bytes

/-- VADBuffer.add_chunk at wall-clock time `now`: append the chunk, add its
length to total_bytes, classify it; a silence chunk starts a silence run at
`now` if none is active; a non-silence chunk clears the run and sets
has_speech. -/
def VADBuffer.add_chunk (s : VADBuffer) (audio_bytes : Chunk) (now : ℚ) : VADBuffer :=
  let s1 := { s with
    chunks := s.chunks ++ [audio_bytes]
    total_bytes := s.total_bytes + audio_bytes.length }
  if s1.is_silence audio_bytes then
    match s1.silence_start_time with
    | none => { s1 with silence_start_time := some now }
    | some _ => s1
  else
    { s1 with silence_start_time := none, has_speech := true }

/-- VADBuffer.should_trigger at wall-clock time `now`: False without
speech; otherwise True when an active silence run has lasted at least
silence_threshold_ms, or the byte-estimated duration has reached
max_duration_s. -/
def VADBuffer.should_trigger (s : VADBuffer) (now : ℚ) : Bool :=
  if !s.has_speech then false
  else if (match s.silence_start_time with
           | some t0 => decide (s.silence_threshold_ms ≤ (now - t0) * 1000)
           | none => false) then true
  else decide (s.max_duration_s ≤ (s.total_bytes : ℚ) / 3200)

/-- VADBuffer.clear. -/
def VADBuffer.clear (s : VADBuffer) : VADBuffer :=
  { s with chunks := [], total_bytes := 0, silence_start_time := none,
           has_speech := false }

/-- VADBuffer.get_audio_and_reset: b'' on an empty buffer (no reset
happens, the early return fires first); otherwise assemble the chunks —
whatever tier of the decode fallback succeeds — and unconditionally
self.clear() before returning. -/
def VADBuffer.get_audio_and_reset {α : Type} (s : VADBuffer) (ora : PydubOracle α) :
    Chunk × VADBuffer :=
  if s.chunks.isEmpty then ([], s)
  else (assembleWav ora s.chunks, s.clear)

/-- VADBuffer.get_duration. -/
def VADBuffer.get_duration (s : VADBuffer) : ℚ := (s.total_bytes : ℚ) / 3200

/-- VADBuffer.get_chunk_count. -/
def VADBuffer.get_chunk_count (s : VADBuffer) : ℕ := s.chunks.length

/-- AudioValidator.validate_format: applies the default allowed-formats
list when None is passed, then attempts AudioSegment.from_file with format
auto-detection and returns whether it succeeded. The allowed_formats list
is never consulted after the defaulting step. `detect` models pydub's
auto-detection: the container format it recognises the bytes as, or `none`
when decoding fails. -/
def validate_format (detect : Chunk → Option String) (audio_bytes : Chunk)
    (allowed_formats : Option (List String)) : Bool :=
  let _allowed := allowed_formats.getD ["wav", "mp3", "webm", "ogg"]
  (detect audio_bytes).isSome

/-- Follows the spec's words for validate_format ("returns whether decoding
succeeded against any of the allowed formats"), to be compared with
`validate_format` above: decoding under a declared format succeeds exactly
when auto-detection recognises the bytes as that format. -/
def validate_format_spec (detect : Chunk → Option String) (audio_bytes : Chunk)
    (allowed_formats : Option (List String)) : Bool :=
  let allowed := allowed_formats.getD ["wav", "mp3", "webm", "ogg"]
  match detect audio_bytes with
  | some fmt => allowed.contains fmt
  | none => false

/-- Adding a list of (chunk, arrival-time) pairs in order. -/
def VADBuffer.addChunks (s : VADBuffer) (l : List (Chunk × ℚ)) : VADBuffer :=
  l.foldl (fun acc p => acc.add_chunk p.1 p.2) s

/-- A trivial oracle in which every pydub call raises. -/
def failOracle : PydubOracle Unit :=
  ⟨fun _ => none, fun _ => none, fun _ => none⟩

/-- The VADBuffer states reachable through the class interface. -/
inductive VADBuffer.Reachable : VADBuffer → Prop where
  | init : ∀ stm mds rst sr, Reachable (VADBuffer.init stm mds rst sr)
  | add : ∀ s b t, Reachable s → Reachable (s.add_chunk b t)
  | clear : ∀ s, Reachable s → Reachable s.clear
  | reset : ∀ (s : VADBuffer) {α : Type} (ora : PydubOracle α),
      Reachable s → Reachable (s.get_audio_and_reset ora).2

/-- add_chunk leaves the four configuration fields unchanged. -/
theorem VADBuffer.add_chunk_config (s : VADBuffer) (b : Chunk) (t : ℚ) :
    (s.add_chunk b t).silence_threshold_ms = s.silence_threshold_ms ∧
    (s.add_chunk b t).max_duration_s = s.max_duration_s ∧
    (s.add_chunk b t).rms_silence_threshold = s.rms_silence_threshold ∧
    (s.add_chunk b t).sample_rate = s.sample_rate := by
  unfold VADBuffer.add_chunk
  dsimp only
  split
  · split <;> exact ⟨rfl, rfl, rfl, rfl⟩
  · exact ⟨rfl, rfl, rfl, rfl⟩

/-- add_chunk appends the chunk and adds its length to total_bytes. -/
theorem VADBuffer.add_chunk_chunks (s : VADBuffer) (b : Chunk) (t : ℚ) :
    (s.add_chunk b t).chunks = s.chunks ++ [b] ∧
    (s.add_chunk b t).total_bytes = s.total_bytes + b.length := by
  unfold VADBuffer.add_chunk
  dsimp only
  split
  · split <;> exact ⟨rfl, rfl⟩
  · exact ⟨rfl, rfl⟩

/-- has_speech after add_chunk: set exactly when it already held or the new
chunk is not silence. -/
theorem VADBuffer.add_chunk_has_speech (s : VADBuffer) (b : Chunk) (t : ℚ) :
    (s.add_chunk b t).has_speech = (s.has_speech || !(s.is_silence b)) := by
  unfold VADBuffer.add_chunk VADBuffer.is_silence
  dsimp only
  cases h : rmsIsSilence s.rms_silence_threshold b
  · simp
  · cases hs : s.silence_start_time <;> simp [hs]

/-- silence_start_time after add_chunk: a silence chunk starts a run at the
current time only when none is active; a non-silence chunk clears it. -/
theorem VADBuffer.add_chunk_silence_start (s : VADBuffer) (b : Chunk) (t : ℚ) :
    (s.add_chunk b t).silence_start_time =
      (if s.is_silence b then some (s.silence_start_time.getD t) else none) := by
  unfold VADBuffer.add_chunk VADBuffer.is_silence
  dsimp only
  cases h : rmsIsSilence s.rms_silence_threshold b
  · simp
  · cases hs : s.silence_start_time <;> simp [hs]

/-- Unfolding one step of addChunks. -/
theorem VADBuffer.addChunks_cons (s : VADBuffer) (p : Chunk × ℚ) (l : List (Chunk × ℚ)) :
    s.addChunks (p :: l) = (s.add_chunk p.1 p.2).addChunks l := rfl

/-- addChunks leaves the configuration fields unchanged. -/
theorem VADBuffer.addChunks_config (s : VADBuffer) (l : List (Chunk × ℚ)) :
    (s.addChunks l).silence_threshold_ms = s.silence_threshold_ms ∧
    (s.addChunks l).max_duration_s = s.max_duration_s ∧
    (s.addChunks l).rms_silence_threshold = s.rms_silence_threshold := by
  induction l generalizing s with
  | nil => exact ⟨rfl, rfl, rfl⟩
  | cons p l ih =>
    rw [VADBuffer.addChunks_cons]
    obtain ⟨h1, h2, h3, _⟩ := VADBuffer.add_chunk_config s p.1 p.2
    obtain ⟨g1, g2, g3⟩ := ih (s.add_chunk p.1 p.2)
    exact ⟨g1.trans h1, g2.trans h2, g3.trans h3⟩

/-- addChunks adds all the chunk lengths to total_bytes. -/
theorem VADBuffer.addChunks_total_bytes (s : VADBuffer) (l : List (Chunk × ℚ)) :
    (s.addChunks l).total_bytes = s.total_bytes + (l.map fun p => p.1.length).sum := by
  induction l generalizing s with
  | nil => simp [VADBuffer.addChunks]
  | cons p l ih =>
    rw [VADBuffer.addChunks_cons, ih, (VADBuffer.add_chunk_chunks s p.1 p.2).2]
    simp
    omega

/-- has_speech after addChunks: held before, or some added chunk is not
silence (classification judged at the unchanged threshold). -/
theorem VADBuffer.addChunks_has_speech (s : VADBuffer) (l : List (Chunk × ℚ)) :
    (s.addChunks l).has_speech
      = (s.has_speech || l.any fun p => !(rmsIsSilence s.rms_silence_threshold p.1)) := by
  induction l generalizing s with
  | nil => simp [VADBuffer.addChunks]
  | cons p l ih =>
    rw [VADBuffer.addChunks_cons, ih, VADBuffer.add_chunk_has_speech]
    obtain ⟨_, _, h3, _⟩ := VADBuffer.add_chunk_config s p.1 p.2
    rw [h3]
    simp [VADBuffer.is_silence, Bool.or_assoc]

/-- Adding only silence-classified chunks keeps an active silence run's
start time. -/
theorem VADBuffer.addChunks_silence_start_some (s : VADBuffer) (l : List (Chunk × ℚ))
    (t0 : ℚ) (hs : s.silence_start_time = some t0)
    (hsil : ∀ p ∈ l, rmsIsSilence s.rms_silence_threshold p.1 = true) :
    (s.addChunks l).silence_start_time = some t0 := by
  induction l generalizing s with
  | nil => exact hs
  | cons p l ih =>
    rw [VADBuffer.addChunks_cons]
    obtain ⟨_, _, h3, _⟩ := VADBuffer.add_chunk_config s p.1 p.2
    refine ih (s.add_chunk p.1 p.2) ?_ ?_
    · rw [VADBuffer.add_chunk_silence_start]
      simp [VADBuffer.is_silence, hsil p (by simp), hs]
    · intro q hq
      rw [h3]
      exact hsil q (by simp [hq])

/-- Adding silence-classified chunks to a state with no active silence run
starts the run at the first chunk's arrival time. -/
theorem VADBuffer.addChunks_silence_start_none (s : VADBuffer) (p : Chunk × ℚ)
    (l : List (Chunk × ℚ)) (hs : s.silence_start_time = none)
    (hsil : ∀ q ∈ p :: l, rmsIsSilence s.rms_silence_threshold q.1 = true) :
    (s.addChunks (p :: l)).silence_start_time = some p.2 := by
  rw [VADBuffer.addChunks_cons]
  obtain ⟨_, _, h3, _⟩ := VADBuffer.add_chunk_config s p.1 p.2
  refine VADBuffer.addChunks_silence_start_some _ _ p.2 ?_ ?_
  · rw [VADBuffer.add_chunk_silence_start]
    simp [VADBuffer.is_silence, hsil p (by simp), hs]
  · intro q hq
    rw [h3]
    exact hsil q (by simp [hq])

/-- should_trigger is false whenever has_speech is false. -/
theorem VADBuffer.should_trigger_no_speech (s : VADBuffer) (now : ℚ)
    (h : s.has_speech = false) : s.should_trigger now = false := by
  simp [VADBuffer.should_trigger, h]

/-- should_trigger is true whenever speech was seen and the byte-estimated
duration has reached max_duration_s, whatever the silence state. -/
theorem VADBuffer.should_trigger_max_duration (s : VADBuffer) (now : ℚ)
    (h1 : s.has_speech = true)
    (h2 : s.max_duration_s ≤ (s.total_bytes : ℚ) / 3200) :
    s.should_trigger now = true := by
  unfold VADBuffer.should_trigger
  rw [h1]
  simp only [Bool.not_true, Bool.false_eq_true, if_false]
  split
  · rfl
  · exact decide_eq_true h2

/-- should_trigger is true whenever speech was seen and the active silence
run has lasted at least silence_threshold_ms. -/
theorem VADBuffer.should_trigger_silence_run (s : VADBuffer) (now t0 : ℚ)
    (h1 : s.has_speech = true) (h2 : s.silence_start_time = some t0)
    (h3 : s.silence_threshold_ms ≤ (now - t0) * 1000) :
    s.should_trigger now = true := by
  simp [VADBuffer.should_trigger, h1, h2, h3]

/-- The state returned by get_audio_and_reset: unchanged on an empty
buffer, cleared otherwise. -/
theorem VADBuffer.get_audio_and_reset_snd {α : Type} (s : VADBuffer)
    (ora : PydubOracle α) :
    (s.get_audio_and_reset ora).2 = if s.chunks.isEmpty then s else s.clear := by
  unfold VADBuffer.get_audio_and_reset
  split <;> simp_all

/-- In every reachable state, an empty chunk list entails has_speech
false and no active silence run. -/
theorem VADBuffer.reachable_empty (s : VADBuffer) (h : s.Reachable)
    (hc : s.chunks = []) : s.has_speech = false ∧ s.silence_start_time = none := by
  induction h with
  | init stm mds rst sr => exact ⟨rfl, rfl⟩
  | add s b t _ _ =>
    rw [(VADBuffer.add_chunk_chunks s b t).1] at hc
    exact absurd hc (by simp)
  | clear s _ _ => exact ⟨rfl, rfl⟩
  | reset s ora hr ih =>
    rw [VADBuffer.get_audio_and_reset_snd] at hc ⊢
    by_cases he : s.chunks.isEmpty
    · rw [if_pos he] at hc ⊢
      exact ih hc
    · rw [if_neg he]
      exact ⟨rfl, rfl⟩

/-- Claim C1, counterexample: the claim as stated fails. A fresh buffer
(max_duration_s = 1/100 s) fed a single 32-byte all-zero fragment has
estimated duration 32/3200 = 1/100 ≥ max_duration_s and every fragment
classified as silence, yet should_trigger is false (at wall-clock time 5),
because should_trigger returns false whenever has_speech is false. -/
theorem c1_counterexample :
    ((VADBuffer.init 1000 (1/100) (1/100) 16000).add_chunk (List.replicate 32 0) 0).max_duration_s
      ≤ ((((VADBuffer.init 1000 (1/100) (1/100) 16000).add_chunk (List.replicate 32 0) 0).total_bytes : ℚ) / 3200) ∧
    (VADBuffer.init 1000 (1/100) (1/100) 16000).is_silence (List.replicate 32 0) = true ∧
    ((VADBuffer.init 1000 (1/100) (1/100) 16000).add_chunk (List.replicate 32 0) 0).should_trigger 5 = false := by
  refine ⟨?_, ?_, ?_⟩
  · norm_num [VADBuffer.add_chunk, VADBuffer.init, VADBuffer.is_silence, rmsIsSilence,
      framesOfBytes, meanSquare, int16OfBytes, List.replicate]
  · norm_num [VADBuffer.init, VADBuffer.is_silence, rmsIsSilence,
      framesOfBytes, meanSquare, int16OfBytes, List.replicate]
  · norm_num [VADBuffer.should_trigger, VADBuffer.add_chunk, VADBuffer.init,
      VADBuffer.is_silence, rmsIsSilence, framesOfBytes, meanSquare, int16OfBytes,
      List.replicate]

/-- Claim C1, amended: for every fragment sequence added to a fresh (or
freshly reset) buffer in which at least one fragment classifies as
non-silence, once the cumulative estimated duration (total bytes / 3200)
reaches max_duration_s, should_trigger returns true at every wall-clock
time, regardless of the silence pattern of the remaining fragments. -/
theorem c1_max_duration_needs_speech (stm mds rst : ℚ) (sr : ℕ)
    (l : List (Chunk × ℚ)) (now : ℚ)
    (hspeech : ∃ p ∈ l, rmsIsSilence rst p.1 = false)
    (hdur : mds ≤ (((l.map fun p => p.1.length).sum : ℕ) : ℚ) / 3200) :
    ((VADBuffer.init stm mds rst sr).addChunks l).should_trigger now = true := by
  obtain ⟨hc1, hc2, hc3⟩ := VADBuffer.addChunks_config (VADBuffer.init stm mds rst sr) l
  apply VADBuffer.should_trigger_max_duration
  · rw [VADBuffer.addChunks_has_speech]
    obtain ⟨p, hp, hps⟩ := hspeech
    refine Bool.or_eq_true _ _ |>.mpr (Or.inr ?_)
    rw [List.any_eq_true]
    exact ⟨p, hp, by simp [VADBuffer.init, hps]⟩
  · rw [hc2, VADBuffer.addChunks_total_bytes]
    simpa [VADBuffer.init] using hdur

/-- Claim C1, witness for the amended theorem: a single non-silence 2-byte
fragment with max_duration_s = 1/1600 s. -/
theorem c1_witness :
    ((VADBuffer.init 1000 (1/1600) (1/100) 16000).addChunks [([72, 1], 0)]).should_trigger 5 = true :=
  c1_max_duration_needs_speech 1000 (1/1600) (1/100) 16000 [([72, 1], 0)] 5
    ⟨([72, 1], 0), by simp, by
      norm_num [rmsIsSilence, framesOfBytes, meanSquare, int16OfBytes]⟩
    (by norm_num)

/-- Claim C2: on a fresh buffer (VADBuffer.init, which is also the state
clear() produces for the same configuration), if every added fragment
classifies as silence then should_trigger is false after any number of
fragments and at any wall-clock time — has_speech never becomes true. -/
theorem c2_all_silence_never_triggers (stm mds rst : ℚ) (sr : ℕ)
    (l : List (Chunk × ℚ)) (now : ℚ)
    (hsil : ∀ p ∈ l, rmsIsSilence rst p.1 = true) :
    ((VADBuffer.init stm mds rst sr).addChunks l).should_trigger now = false := by
  apply VADBuffer.should_trigger_no_speech
  rw [VADBuffer.addChunks_has_speech]
  simp only [VADBuffer.init, Bool.false_or, List.any_eq_false]
  intro p hp
  simp [hsil p hp]

/-- Claim C2, witness: ten seconds of 2-byte zero fragments under the
default configuration, queried at time 100. -/
theorem c2_witness :
    ((VADBuffer.init 1000 6 (1/100) 16000).addChunks [([0, 0], 0), ([0, 0], 5)]).should_trigger 100 = false :=
  c2_all_silence_never_triggers 1000 6 (1/100) 16000 [([0, 0], 0), ([0, 0], 5)] 100
    (by
      intro p hp
      simp only [List.mem_cons, List.mem_singleton, List.not_mem_nil, or_false] at hp
      rcases hp with rfl | rfl <;>
        norm_num [rmsIsSilence, framesOfBytes, meanSquare, int16OfBytes])

/-- Claim C3: in any state, add a fragment classified as non-silence, then
only fragments classified as silence (the first arriving at time p.2);
once the silence run has lasted at least silence_threshold_ms at time
`now`, should_trigger is true at `now` and at every later time `now'` —
no further fragment intervening — so it stays true until
get_audio_and_reset is called. -/
theorem c3_silence_run_triggers_and_latches (s : VADBuffer) (f : Chunk) (t : ℚ)
    (p : Chunk × ℚ) (l : List (Chunk × ℚ)) (now now' : ℚ)
    (hf : s.is_silence f = false)
    (hsil : ∀ q ∈ p :: l, rmsIsSilence s.rms_silence_threshold q.1 = true)
    (hrun : s.silence_threshold_ms ≤ (now - p.2) * 1000)
    (hmono : now ≤ now') :
    (((s.add_chunk f t).addChunks (p :: l)).should_trigger now') = true := by
  obtain ⟨ha1, ha2, ha3, _⟩ := VADBuffer.add_chunk_config s f t
  obtain ⟨hb1, hb2, hb3⟩ := VADBuffer.addChunks_config (s.add_chunk f t) (p :: l)
  apply VADBuffer.should_trigger_silence_run _ _ p.2
  · rw [VADBuffer.addChunks_has_speech, VADBuffer.add_chunk_has_speech, hf]
    simp
  · refine VADBuffer.addChunks_silence_start_none _ _ _ ?_ ?_
    · rw [VADBuffer.add_chunk_silence_start, hf]
      simp
    · intro q hq
      rw [ha3]
      exact hsil q hq
  · rw [hb1, ha1]
    have : (now - p.2) * 1000 ≤ (now' - p.2) * 1000 := by nlinarith
    linarith

/-- Claim C3, witness: default configuration; speech fragment [72, 1] at
time 0, silence fragment [0, 0] at time 1, queried at times 2 and 3
(silence run of 1000 ms reached at time 2). -/
theorem c3_witness :
    (((VADBuffer.init 1000 6 (1/100) 16000).add_chunk [72, 1] 0).addChunks [([0, 0], 1)]).should_trigger 3 = true :=
  c3_silence_run_triggers_and_latches (VADBuffer.init 1000 6 (1/100) 16000)
    [72, 1] 0 ([0, 0], 1) [] 2 3
    (by norm_num [VADBuffer.init, VADBuffer.is_silence, rmsIsSilence, framesOfBytes,
      meanSquare, int16OfBytes])
    (by
      intro q hq
      simp only [List.mem_cons, List.not_mem_nil, or_false] at hq
      subst hq
      norm_num [VADBuffer.init, rmsIsSilence, framesOfBytes, meanSquare, int16OfBytes])
    (by norm_num [VADBuffer.init])
    (by norm_num)

/-- Claim C4: from every reachable VADBuffer state and for every outcome of
the pydub calls during assembly, the state after get_audio_and_reset has
chunk count 0, has_speech false and silence_start_time none. -/
theorem c4_reset_state_after_get {α : Type} (ora : PydubOracle α)
    (s : VADBuffer) (h : s.Reachable) :
    ((s.get_audio_and_reset ora).2).get_chunk_count = 0 ∧
    ((s.get_audio_and_reset ora).2).has_speech = false ∧
    ((s.get_audio_and_reset ora).2).silence_start_time = none := by
  rw [VADBuffer.get_audio_and_reset_snd]
  by_cases he : s.chunks.isEmpty
  · rw [if_pos he]
    have hc : s.chunks = [] := by simpa using he
    obtain ⟨h1, h2⟩ := VADBuffer.reachable_empty s h hc
    exact ⟨by simp [VADBuffer.get_chunk_count, hc], h1, h2⟩
  · rw [if_neg he]
    exact ⟨rfl, rfl, rfl⟩

/-- Claim C4, witness: the reachable state holding one fragment [0] under
the default configuration, with every pydub call failing. -/
theorem c4_witness :
    ((((VADBuffer.init 1000 6 (1/100) 16000).add_chunk [0] 0).get_audio_and_reset failOracle).2).get_chunk_count = 0 ∧
    ((((VADBuffer.init 1000 6 (1/100) 16000).add_chunk [0] 0).get_audio_and_reset failOracle).2).has_speech = false ∧
    ((((VADBuffer.init 1000 6 (1/100) 16000).add_chunk [0] 0).get_audio_and_reset failOracle).2).silence_start_time = none :=
  c4_reset_state_after_get failOracle _
    (VADBuffer.Reachable.add _ [0] 0 (VADBuffer.Reachable.init 1000 6 (1/100) 16000))

/-- Claim C5, counterexample: the claim as stated fails for fragments
yielding zero samples. The empty fragment parses to an empty sample array,
which _is_silence classifies as silence (True), so add_chunk on it leaves
has_speech false and records a silence start instead of clearing it. -/
theorem c5_counterexample :
    (VADBuffer.init 1000 6 (1/100) 16000).is_silence [] = true ∧
    ((VADBuffer.init 1000 6 (1/100) 16000).add_chunk [] 0).has_speech = false ∧
    ((VADBuffer.init 1000 6 (1/100) 16000).add_chunk [] 0).silence_start_time = some 0 := by
  refine ⟨rfl, ?_, ?_⟩ <;> rfl

/-- Claim C5, amended: for every fragment on which the sample parse itself
fails (numpy raising, e.g. an odd byte count), the buffer classifies the
fragment as not silence, so add_chunk on it sets has_speech and clears
silence_start_time; but a fragment yielding zero samples is classified as
silence. -/
theorem c5_analysis_failure_not_silence (s : VADBuffer) (f : Chunk) (t : ℚ)
    (h : framesOfBytes f = none) :
    s.is_silence f = false ∧
    (s.add_chunk f t).has_speech = true ∧
    (s.add_chunk f t).silence_start_time = none := by
  have hsil : s.is_silence f = false := by
    simp [VADBuffer.is_silence, rmsIsSilence, h]
  refine ⟨hsil, ?_, ?_⟩
  · rw [VADBuffer.add_chunk_has_speech, hsil]
    simp
  · rw [VADBuffer.add_chunk_silence_start, hsil]
    simp

/-- Claim C5, witness for the amended theorem: the one-byte fragment [0]
(odd byte count, the int16 parse raises). -/
theorem c5_witness :
    (VADBuffer.init 1000 6 (1/100) 16000).is_silence [0] = false ∧
    ((VADBuffer.init 1000 6 (1/100) 16000).add_chunk [0] 0).has_speech = true ∧
    ((VADBuffer.init 1000 6 (1/100) 16000).add_chunk [0] 0).silence_start_time = none :=
  c5_analysis_failure_not_silence (VADBuffer.init 1000 6 (1/100) 16000) [0] 0 rfl

/-- Tier 1 of the assembly fallback: the webm decode and the WAV export
succeed, and the exported bytes are returned. -/
theorem assembleWav_webm {α : Type} (ora : PydubOracle α) (cs : List Chunk)
    (a : α) (w : Chunk) (h1 : ora.fromFileWebm cs.flatten = some a)
    (h2 : ora.exportWav a = some w) : assembleWav ora cs = w := by
  simp only [assembleWav]
  rw [h1]
  simp [h2]

/-- Tier 2 of the assembly fallback: the webm decode fails, the auto-detect
decode and the WAV export succeed, and the exported bytes are returned. -/
theorem assembleWav_auto {α : Type} (ora : PydubOracle α) (cs : List Chunk)
    (a : α) (w : Chunk) (h0 : ora.fromFileWebm cs.flatten = none)
    (h1 : ora.fromFileAuto cs.flatten = some a)
    (h2 : ora.exportWav a = some w) : assembleWav ora cs = w := by
  simp only [assembleWav]
  rw [h0, h1]
  simp [h2]

/-- Tier 3 of the assembly fallback: both decodes fail and the raw
concatenation of the buffered bytes is returned. -/
theorem assembleWav_raw {α : Type} (ora : PydubOracle α) (cs : List Chunk)
    (h0 : ora.fromFileWebm cs.flatten = none)
    (h1 : ora.fromFileAuto cs.flatten = none) :
    assembleWav ora cs = cs.flatten := by
  simp only [assembleWav]
  rw [h0, h1]

/-- The audio returned by get_audio_and_reset on a nonempty buffer is the
assembled audio. -/
theorem VADBuffer.get_audio_and_reset_fst {α : Type} (s : VADBuffer)
    (ora : PydubOracle α) (h : s.chunks ≠ []) :
    (s.get_audio_and_reset ora).1 = assembleWav ora s.chunks := by
  unfold VADBuffer.get_audio_and_reset
  rw [if_neg (by simpa using h)]

/-- The audio returned by AudioBuffer.get_audio on a nonempty buffer is the
assembled audio. -/
theorem AudioBuffer.get_audio_fst {α : Type} (s : AudioBuffer)
    (ora : PydubOracle α) (h : s.chunks ≠ []) :
    (s.get_audio ora).1 = assembleWav ora s.chunks := by
  unfold AudioBuffer.get_audio
  rw [if_neg (by simpa using h)]

/-- Claim C6, counterexample: the claim as stated fails — AudioBuffer's
get operation does not clear the buffer. After get_audio on a buffer
holding the single fragment [0] (every pydub call failing, so the raw
bytes are returned), the chunk count is still 1 and a second get_audio
returns the same fragment again. -/
theorem c6_counterexample :
    ((((AudioBuffer.init 3 60).add [0]).get_audio failOracle).2).get_chunk_count = 1 ∧
    (((AudioBuffer.init 3 60).add [0]).get_audio failOracle).1 = [0] ∧
    (((((AudioBuffer.init 3 60).add [0]).get_audio failOracle).2).get_audio failOracle).1 = [0] :=
  ⟨rfl, rfl, rfl⟩

/-- Claim C6, amended: get_audio assembles all buffered fragments (per the
decode fallback policy) but leaves the buffer state unchanged, so fragments
can be read again by repeated calls; clearing is a separate clear() call,
which empties the fragment list and zeroes the accumulated duration. -/
theorem c6_get_does_not_clear {α : Type} (ora : PydubOracle α) (ab : AudioBuffer) :
    (ab.get_audio ora).2 = ab ∧
    ab.clear.chunks = [] ∧
    ab.clear.total_duration = 0 := by
  refine ⟨?_, rfl, rfl⟩
  unfold AudioBuffer.get_audio
  split <;> rfl

/-- Claim C7: assembly never raises — it is a total function of the pydub
call outcomes. On a nonempty buffer, both VADBuffer.get_audio_and_reset and
AudioBuffer.get_audio return the tier-1 WAV export of the webm decode when
it succeeds; the tier-2 WAV export of the auto-detect decode when the webm
decode fails; and the raw concatenation of all buffered fragment bytes when
both decodes fail. -/
theorem c7_assembly_fallback_chain {α : Type} (ora : PydubOracle α)
    (s : VADBuffer) (ab : AudioBuffer) (hs : s.chunks ≠ []) (hab : ab.chunks ≠ []) :
    ((∀ a w, ora.fromFileWebm s.chunks.flatten = some a → ora.exportWav a = some w →
        (s.get_audio_and_reset ora).1 = w) ∧
     (∀ a w, ora.fromFileWebm s.chunks.flatten = none →
        ora.fromFileAuto s.chunks.flatten = some a → ora.exportWav a = some w →
        (s.get_audio_and_reset ora).1 = w) ∧
     (ora.fromFileWebm s.chunks.flatten = none →
        ora.fromFileAuto s.chunks.flatten = none →
        (s.get_audio_and_reset ora).1 = s.chunks.flatten)) ∧
    ((∀ a w, ora.fromFileWebm ab.chunks.flatten = some a → ora.exportWav a = some w →
        (ab.get_audio ora).1 = w) ∧
     (∀ a w, ora.fromFileWebm ab.chunks.flatten = none →
        ora.fromFileAuto ab.chunks.flatten = some a → ora.exportWav a = some w →
        (ab.get_audio ora).1 = w) ∧
     (ora.fromFileWebm ab.chunks.flatten = none →
        ora.fromFileAuto ab.chunks.flatten = none →
        (ab.get_audio ora).1 = ab.chunks.flatten)) := by
  rw [VADBuffer.get_audio_and_reset_fst s ora hs, AudioBuffer.get_audio_fst ab ora hab]
  exact ⟨⟨fun a w h1 h2 => assembleWav_webm ora s.chunks a w h1 h2,
          fun a w h0 h1 h2 => assembleWav_auto ora s.chunks a w h0 h1 h2,
          fun h0 h1 => assembleWav_raw ora s.chunks h0 h1⟩,
         ⟨fun a w h1 h2 => assembleWav_webm ora ab.chunks a w h1 h2,
          fun a w h0 h1 h2 => assembleWav_auto ora ab.chunks a w h0 h1 h2,
          fun h0 h1 => assembleWav_raw ora ab.chunks h0 h1⟩⟩

/-- Claim C7, witness: nonempty buffers holding the fragment [0] with every
pydub call failing — the raw-bytes tier returns [0] from both buffers. -/
theorem c7_witness :
    (((VADBuffer.init 1000 6 (1/100) 16000).add_chunk [0] 0).get_audio_and_reset failOracle).1 = [0] ∧
    (((AudioBuffer.init 3 60).add [0]).get_audio failOracle).1 = [0] := by
  have h := c7_assembly_fallback_chain failOracle
    ((VADBuffer.init 1000 6 (1/100) 16000).add_chunk [0] 0)
    ((AudioBuffer.init 3 60).add [0]) (by decide) (by decide)
  exact ⟨(h.1.2.2 rfl rfl).trans rfl, (h.2.2.2 rfl rfl).trans rfl⟩

/-- Claim C8, counterexample: the claim as stated fails. With pydub
recognising the bytes as flac, validate_format returns true even though
flac is not among the allowed formats — the spec-following predicate
(success under some allowed format) is false there. -/
theorem c8_counterexample :
    validate_format (fun _ => some "flac") [0] (some ["wav"]) = true ∧
    validate_format_spec (fun _ => some "flac") [0] (some ["wav"]) = false :=
  ⟨rfl, rfl⟩

/-- Claim C8, amended: validate_format returns true exactly when the bytes
decode successfully under pydub's automatic format detection; the
allowed_formats argument is ignored (beyond defaulting), so the result is
the same for any two allowed-format lists; it never raises (it is a total
Boolean function of the decode outcome). -/
theorem c8_ignores_allowed_formats (detect : Chunk → Option String)
    (audio_bytes : Chunk) (fmts fmts' : Option (List String)) :
    validate_format detect audio_bytes fmts = (detect audio_bytes).isSome ∧
    validate_format detect audio_bytes fmts = validate_format detect audio_bytes fmts' :=
  ⟨rfl, rfl⟩

/-- Claim C9: has_speech is monotone within a buffer lifetime — once true
it stays true across every add_chunk, whatever the fragment classifies as;
it is reset to false by clear(), and by get_audio_and_reset on a nonempty
buffer. -/
theorem c9_has_speech_monotone {α : Type} (ora : PydubOracle α)
    (s : VADBuffer) (f : Chunk) (t : ℚ) (h : s.has_speech = true) :
    (s.add_chunk f t).has_speech = true ∧
    s.clear.has_speech = false ∧
    (s.chunks ≠ [] → ((s.get_audio_and_reset ora).2).has_speech = false) := by
  refine ⟨?_, rfl, ?_⟩
  · rw [VADBuffer.add_chunk_has_speech, h]
    simp
  · intro hne
    rw [VADBuffer.get_audio_and_reset_snd, if_neg (by simpa using hne)]
    rfl

/-- Claim C9, witness: a buffer that has seen the non-silence fragment [0],
then receives the empty (silence) fragment. -/
theorem c9_witness :
    (((VADBuffer.init 1000 6 (1/100) 16000).add_chunk [0] 0).add_chunk [] 1).has_speech = true ∧
    ((VADBuffer.init 1000 6 (1/100) 16000).add_chunk [0] 0).clear.has_speech = false ∧
    (((VADBuffer.init 1000 6 (1/100) 16000).add_chunk [0] 0).chunks ≠ [] →
      ((((VADBuffer.init 1000 6 (1/100) 16000).add_chunk [0] 0).get_audio_and_reset failOracle).2).has_speech = false) :=
  c9_has_speech_monotone failOracle ((VADBuffer.init 1000 6 (1/100) 16000).add_chunk [0] 0)
    [] 1 rfl

/-- Claim C10: on a buffer holding zero fragments, VADBuffer's
get_audio_and_reset and AudioBuffer's get_audio return the empty byte
string and leave the state untouched, for every decode oracle — so no
decode outcome can influence the result. -/
theorem c10_empty_buffer_returns_empty {α : Type} (ora : PydubOracle α)
    (s : VADBuffer) (ab : AudioBuffer) (hs : s.chunks = []) (hab : ab.chunks = []) :
    s.get_audio_and_reset ora = ([], s) ∧ ab.get_audio ora = ([], ab) := by
  constructor
  · unfold VADBuffer.get_audio_and_reset
    rw [if_pos (by simp [hs])]
  · unfold AudioBuffer.get_audio
    rw [if_pos (by simp [hab])]

/-- Claim C10, witness: the fresh buffers with every pydub call failing. -/
theorem c10_witness :
    (VADBuffer.init 1000 6 (1/100) 16000).get_audio_and_reset failOracle
      = ([], VADBuffer.init 1000 6 (1/100) 16000) ∧
    (AudioBuffer.init 3 60).get_audio failOracle = ([], AudioBuffer.init 3 60) :=
  c10_empty_buffer_returns_empty failOracle (VADBuffer.init 1000 6 (1/100) 16000)
    (AudioBuffer.init 3 60) rfl rfl
